import Mathlib

/-!
Verification of `src/main.py` of the `orbital_mechanics` repository.

Python floats are idealised as real numbers. Python exceptions are modelled
with `Except PyErr`: `math.sqrt` raises `ValueError` ("math domain error") on
a negative argument, and float division raises `ZeroDivisionError` on a zero
divisor; both are reflected here.  The Flask layer is modelled by the effect
of the handler on an already-received request: a query parameter, as the
handler observes it through `request.args[...]` and `float(...)`, is either
absent (a `KeyError`), present but not parseable as a float (a `ValueError`),
or parsed to a numeric value.
-/

namespace OrbitalMechanics

noncomputable section

/-- `EARTH_MU` from `src/main.py`: Earth's standard gravitational parameter,
in km^3/s^2. -/
def EARTH_MU : ℝ := 398600.4418

/-- The Python exceptions this program can raise. -/
inductive PyErr where
  | keyError
  | typeError
  | valueError
  | zeroDivisionError
deriving DecidableEq

/-- Python float division: raises `ZeroDivisionError` on a zero divisor,
otherwise real division. -/
def float_div (x y : ℝ) : Except PyErr ℝ :=
  if y = 0 then .error .zeroDivisionError else .ok (x / y)

/-- Python `math.sqrt`: raises `ValueError` ("math domain error") on a
negative argument, otherwise the real square root. -/
def math_sqrt (x : ℝ) : Except PyErr ℝ :=
  if x < 0 then .error .valueError else .ok (Real.sqrt x)

/-- `orbital_period` from `src/main.py`:
`return 2 * math.pi * math.sqrt(semi_major_axis ** 3 / mu)`.
The Python default `mu = EARTH_MU` is applied explicitly at each call site
here. Exceptions raised by the division or the square root propagate. -/
def orbital_period (semi_major_axis mu : ℝ) : Except PyErr ℝ :=
  match float_div (semi_major_axis ^ 3) mu with
  | .error err => .error err
  | .ok q =>
    match math_sqrt q with
    | .error err => .error err
    | .ok s => .ok (2 * Real.pi * s)

/-- `periapsis_distance` from `src/main.py`:
`return semi_major_axis * (1 - eccentricity)`. -/
def periapsis_distance (semi_major_axis eccentricity : ℝ) : ℝ :=
  semi_major_axis * (1 - eccentricity)

/-- `apoapsis_distance` from `src/main.py`:
`return semi_major_axis * (1 + eccentricity)`. -/
def apoapsis_distance (semi_major_axis eccentricity : ℝ) : ℝ :=
  semi_major_axis * (1 + eccentricity)

/-- A JSON value, as produced by `jsonify`.  Objects keep insertion order. -/
inductive Json where
  | num (x : ℝ)
  | str (s : String)
  | obj (fields : List (String × Json))

/-- Field lookup in a JSON object (first match, as in a Python dict). -/
def Json.lookup : Json → String → Option Json
  | .obj fields, k => (fields.find? (fun p => p.1 == k)).map Prod.snd
  | _, _ => none

/-- A query parameter as the handler observes it after
`float(request.args[...])`: absent (`KeyError`), present but not parseable
as a Python float (`ValueError`), or parsed to a numeric value. -/
inductive Param where
  | absent
  | invalid (raw : String)
  | value (x : ℝ)

/-- The parse result of a parameter: `some x` exactly when
`float(request.args[...])` succeeds with value `x`. -/
def Param.toFloat : Param → Option ℝ
  | .value x => some x
  | _ => none

/-- A GET request to `/calculate`, reduced to its two query parameters. -/
structure Request where
  semi_major_axis : Param
  eccentricity : Param

/-- The fixed 400 body of `src/main.py`:
`{"error": "Invalid or missing parameters"}`. -/
def errorBody : Json := .obj [("error", .str "Invalid or missing parameters")]

/-- `calculate` from `src/main.py`.  The `try` block covers only the two
parses: a `KeyError`/`ValueError` there yields the 400 response.  On success
the three physics functions are called (the orbital period with the default
`EARTH_MU`) outside the `try`, so an exception raised there propagates as an
uncaught error rather than a response. -/
def calculate (req : Request) : Except PyErr (ℕ × Json) :=
  match req.semi_major_axis.toFloat, req.eccentricity.toFloat with
  | some a, some e =>
    match orbital_period a EARTH_MU with
    | .error err => .error err
    | .ok T =>
      .ok (200, Json.obj
        [("periapsis", .num (periapsis_distance a e)),
         ("apoapsis", .num (apoapsis_distance a e)),
         ("orbital_period", .num T)])
  | _, _ => .ok (400, errorBody)

/-- What the program does when invoked standalone: either run the Flask
server or print some lines. -/
inductive MainAction where
  | runServer (debug : Bool)
  | printLines (lines : List String)

/-- The `if __name__ == "__main__":` block of `src/main.py`:
`app.run(debug=True)`. -/
def main_action : MainAction := .runServer true

/-- Modelled from the spec: the spec describes a standalone smoke-test mode
that prints periapsis, apoapsis (km, 2 decimal places) and the orbital
period (minutes, 2 decimal places) for a = 7000 km, e = 0.01; in this model
that is a `printLines` action. -/
def spec_standalone_prints (m : MainAction) : Prop :=
  ∃ lines, m = MainAction.printLines lines

theorem EARTH_MU_pos : 0 < EARTH_MU := by norm_num [EARTH_MU]

theorem orbital_period_of_nonneg (a mu : ℝ) (ha : 0 ≤ a) (hmu : 0 < mu) :
    orbital_period a mu = .ok (2 * Real.pi * Real.sqrt (a ^ 3 / mu)) := by
  have hq : ¬ a ^ 3 / mu < 0 :=
    not_lt.mpr (div_nonneg (pow_nonneg ha 3) hmu.le)
  simp [orbital_period, float_div, math_sqrt, hmu.ne', hq]

theorem orbital_period_of_neg (a mu : ℝ) (ha : a < 0) (hmu : 0 < mu) :
    orbital_period a mu = .error PyErr.valueError := by
  have h3 : a ^ 3 < 0 := by
    have hcube : a ^ 3 = a * (a * a) := by ring
    rw [hcube]
    exact mul_neg_of_neg_of_pos ha (mul_pos_of_neg_of_neg ha ha)
  have hq : a ^ 3 / mu < 0 := div_neg_of_neg_of_pos h3 hmu
  simp [orbital_period, float_div, math_sqrt, hmu.ne', hq]

theorem calculate_ok (a e : ℝ) (ha : 0 ≤ a) :
    calculate ⟨Param.value a, Param.value e⟩ =
      .ok (200, Json.obj
        [("periapsis", .num (periapsis_distance a e)),
         ("apoapsis", .num (apoapsis_distance a e)),
         ("orbital_period", .num (2 * Real.pi * Real.sqrt (a ^ 3 / EARTH_MU)))]) := by
  simp [calculate, Param.toFloat, orbital_period_of_nonneg a EARTH_MU ha EARTH_MU_pos]

theorem calculate_bad (p q : Param) (h : p.toFloat = none ∨ q.toFloat = none) :
    calculate ⟨p, q⟩ = .ok (400, errorBody) := by
  cases p with
  | value x =>
    cases q with
    | value y => simp [Param.toFloat] at h
    | absent => rfl
    | invalid r => rfl
  | absent => cases q <;> rfl
  | invalid r => cases q <;> rfl

/-- C3: for every semiMajorAxis > 0 and mu > 0, `orbital_period` returns
(without raising) `2*pi*sqrt(semiMajorAxis^3 / mu)` seconds. -/
theorem orbital_period_formula (a mu : ℝ) (ha : 0 < a) (hmu : 0 < mu) :
    orbital_period a mu = .ok (2 * Real.pi * Real.sqrt (a ^ 3 / mu)) :=
  orbital_period_of_nonneg a mu ha.le hmu

/-- Witness for C3 at a = 1, mu = 1. -/
theorem orbital_period_formula_witness :
    (0 : ℝ) < 1 ∧
      orbital_period 1 1 = .ok (2 * Real.pi * Real.sqrt ((1 : ℝ) ^ 3 / 1)) :=
  ⟨by norm_num, orbital_period_formula 1 1 (by norm_num) (by norm_num)⟩

/-- C4: for every semiMajorAxis and eccentricity, `periapsis_distance`
returns semiMajorAxis*(1 - eccentricity) and `apoapsis_distance` returns
semiMajorAxis*(1 + eccentricity). -/
theorem apsis_formulas (a e : ℝ) :
    periapsis_distance a e = a * (1 - e) ∧ apoapsis_distance a e = a * (1 + e) :=
  ⟨rfl, rfl⟩

/-- C5: for every a > 0 and 0 ≤ e < 1,
periapsis_distance a e ≤ a ≤ apoapsis_distance a e, each inequality an
equality exactly when e = 0. -/
theorem apsis_bounds (a e : ℝ) (ha : 0 < a) (he0 : 0 ≤ e) (_he1 : e < 1) :
    (periapsis_distance a e ≤ a ∧ a ≤ apoapsis_distance a e) ∧
      (periapsis_distance a e = a ↔ e = 0) ∧
      (a = apoapsis_distance a e ↔ e = 0) := by
  unfold periapsis_distance apoapsis_distance
  refine ⟨⟨by nlinarith, by nlinarith⟩,
    ⟨fun h => ?_, fun h => by rw [h]; ring⟩,
    ⟨fun h => ?_, fun h => by rw [h]; ring⟩⟩
  · have hae : a * e = 0 := by linear_combination -h
    exact (mul_eq_zero.mp hae).resolve_left ha.ne'
  · have hae : a * e = 0 := by linear_combination -h
    exact (mul_eq_zero.mp hae).resolve_left ha.ne'

/-- Witness for C5 at a = 2, e = 1/2. -/
theorem apsis_bounds_witness :
    (0 : ℝ) < 2 ∧
      ((periapsis_distance 2 (1 / 2) ≤ 2 ∧ (2 : ℝ) ≤ apoapsis_distance 2 (1 / 2)) ∧
        (periapsis_distance 2 (1 / 2) = 2 ↔ (1 / 2 : ℝ) = 0) ∧
        ((2 : ℝ) = apoapsis_distance 2 (1 / 2) ↔ (1 / 2 : ℝ) = 0)) :=
  ⟨by norm_num, apsis_bounds 2 (1 / 2) (by norm_num) (by norm_num) (by norm_num)⟩

/-- C6: for fixed mu > 0, `orbital_period` is strictly increasing in the
semi-major axis: for 0 < a1 < a2 both calls succeed and the first period is
strictly smaller. -/
theorem orbital_period_mono (a1 a2 mu : ℝ) (h1 : 0 < a1) (h12 : a1 < a2)
    (hmu : 0 < mu) :
    ∃ T1 T2, orbital_period a1 mu = .ok T1 ∧ orbital_period a2 mu = .ok T2 ∧
      T1 < T2 := by
  refine ⟨_, _, orbital_period_of_nonneg a1 mu h1.le hmu,
    orbital_period_of_nonneg a2 mu (h1.trans h12).le hmu, ?_⟩
  have hp : a1 ^ 3 < a2 ^ 3 := pow_lt_pow_left₀ h12 h1.le (by norm_num)
  have hx : a1 ^ 3 / mu < a2 ^ 3 / mu := by
    exact div_lt_div_of_pos_right hp hmu
  have hs : Real.sqrt (a1 ^ 3 / mu) < Real.sqrt (a2 ^ 3 / mu) :=
    Real.sqrt_lt_sqrt (div_nonneg (pow_nonneg h1.le 3) hmu.le) hx
  exact mul_lt_mul_of_pos_left hs (by positivity)

/-- Witness for C6 at a1 = 1, a2 = 4, mu = 1. -/
theorem orbital_period_mono_witness :
    ∃ T1 T2, orbital_period 1 1 = .ok T1 ∧ orbital_period 4 1 = .ok T2 ∧
      T1 < T2 :=
  orbital_period_mono 1 4 1 (by norm_num) (by norm_num) (by norm_num)

/-- Counterexample for C7: at semiMajorAxis = 0 (which the claim covers,
"negative or zero") `orbital_period` raises nothing and returns the
ordinary numeric result 0, so the claim as stated fails. -/
theorem orbital_period_zero_counterexample :
    orbital_period 0 EARTH_MU = .ok 0 := by
  rw [orbital_period_of_nonneg 0 EARTH_MU le_rfl EARTH_MU_pos]
  norm_num [Real.sqrt_zero]

/-- C7 amended: for every semiMajorAxis < 0 (and mu > 0), `orbital_period`
raises an explicit domain error (Python ValueError, "math domain error")
rather than returning a numeric result; at semiMajorAxis = 0 it returns 0. -/
theorem orbital_period_neg_domain_error (a mu : ℝ) (ha : a < 0) (hmu : 0 < mu) :
    orbital_period a mu = .error PyErr.valueError :=
  orbital_period_of_neg a mu ha hmu

/-- Witness for the amended C7 at a = -1, mu = 1. -/
theorem orbital_period_neg_domain_error_witness :
    (-1 : ℝ) < 0 ∧ orbital_period (-1) 1 = .error PyErr.valueError :=
  ⟨by norm_num, orbital_period_neg_domain_error (-1) 1 (by norm_num) (by norm_num)⟩

/-- Counterexample for C1: the request with semi_major_axis = -1 and
eccentricity = 0 has both parameters parsing as floats, yet the handler does
not respond HTTP 200: the call to `orbital_period` raises an uncaught
ValueError, so no response is produced at all. -/
theorem calculate_neg_counterexample :
    calculate ⟨Param.value (-1), Param.value 0⟩ = .error PyErr.valueError := by
  simp [calculate, Param.toFloat,
    orbital_period_of_neg (-1) EARTH_MU (by norm_num) EARTH_MU_pos]

/-- C1 amended: for every request whose two parameters parse as floats and
whose parsed semi_major_axis is nonnegative, the handler responds HTTP 200
with a JSON body containing exactly the keys periapsis, apoapsis and
orbital_period, in that order, whose values are `periapsis_distance a e`,
`apoapsis_distance a e` and the value returned by `orbital_period` at `a`
with the default `EARTH_MU`. -/
theorem calculate_success (a e : ℝ) (ha : 0 ≤ a) :
    ∃ T, orbital_period a EARTH_MU = .ok T ∧
      calculate ⟨Param.value a, Param.value e⟩ =
        .ok (200, Json.obj
          [("periapsis", .num (periapsis_distance a e)),
           ("apoapsis", .num (apoapsis_distance a e)),
           ("orbital_period", .num T)]) :=
  ⟨_, orbital_period_of_nonneg a EARTH_MU ha EARTH_MU_pos, calculate_ok a e ha⟩

/-- Witness for the amended C1 at a = 1, e = 0. -/
theorem calculate_success_witness :
    ∃ T, orbital_period 1 EARTH_MU = .ok T ∧
      calculate ⟨Param.value 1, Param.value 0⟩ =
        .ok (200, Json.obj
          [("periapsis", .num (periapsis_distance 1 0)),
           ("apoapsis", .num (apoapsis_distance 1 0)),
           ("orbital_period", .num T)]) :=
  calculate_success 1 0 (by norm_num)

/-- C2: the handler responds HTTP 400 exactly when a parameter is absent or
does not parse as a float, and every 400 response carries the fixed body
`{"error": "Invalid or missing parameters"}`. -/
theorem calculate_400_iff (req : Request) :
    ((req.semi_major_axis.toFloat = none ∨ req.eccentricity.toFloat = none) ↔
        ∃ body, calculate req = .ok (400, body)) ∧
      ∀ body, calculate req = .ok (400, body) → body = errorBody := by
  obtain ⟨p, q⟩ := req
  cases hp : p.toFloat with
  | none =>
    have hc : calculate ⟨p, q⟩ = .ok (400, errorBody) := calculate_bad p q (Or.inl hp)
    refine ⟨⟨fun _ => ⟨errorBody, hc⟩, fun _ => Or.inl rfl⟩, fun body hb => ?_⟩
    rw [hc] at hb
    injection hb with h
    injection h with _ h2
    exact h2.symm
  | some a =>
    cases hq : q.toFloat with
    | none =>
      have hc : calculate ⟨p, q⟩ = .ok (400, errorBody) := calculate_bad p q (Or.inr hq)
      refine ⟨⟨fun _ => ⟨errorBody, hc⟩, fun _ => Or.inr rfl⟩, fun body hb => ?_⟩
      rw [hc] at hb
      injection hb with h
      injection h with _ h2
      exact h2.symm
    | some e =>
      have hc : calculate ⟨p, q⟩ =
          (match orbital_period a EARTH_MU with
           | .error err => .error err
           | .ok T => .ok (200, Json.obj
              [("periapsis", Json.num (periapsis_distance a e)),
               ("apoapsis", Json.num (apoapsis_distance a e)),
               ("orbital_period", Json.num T)])) := by
        unfold calculate
        rw [hp, hq]
      constructor
      · constructor
        · rintro (h | h) <;> exact absurd h (by simp)
        · rintro ⟨body, hb⟩
          rw [hc] at hb
          cases hT : orbital_period a EARTH_MU <;> rw [hT] at hb <;> simp at hb
      · intro body hb
        rw [hc] at hb
        cases hT : orbital_period a EARTH_MU <;> rw [hT] at hb <;> simp at hb

/-- Witness for C2: the request with semi_major_axis absent yields the 400
response with the fixed error body. -/
theorem calculate_400_iff_witness :
    calculate ⟨Param.absent, Param.value 0⟩ = .ok (400, errorBody) := by
  obtain ⟨body, hb⟩ :=
    (calculate_400_iff ⟨Param.absent, Param.value 0⟩).1.mp (Or.inl rfl)
  rw [(calculate_400_iff ⟨Param.absent, Param.value 0⟩).2 body hb] at hb
  exact hb

/-- C9: for every request whose two parameters parse as floats with a
strictly negative semi_major_axis, the handler produces neither a 400 nor a
200 response: the ValueError from `orbital_period` escapes uncaught. -/
theorem calculate_neg_axis_uncaught (a e : ℝ) (ha : a < 0) :
    calculate ⟨Param.value a, Param.value e⟩ = .error PyErr.valueError ∧
      ∀ status body,
        calculate ⟨Param.value a, Param.value e⟩ ≠ .ok (status, body) := by
  have hc : calculate ⟨Param.value a, Param.value e⟩ = .error PyErr.valueError := by
    simp [calculate, Param.toFloat, orbital_period_of_neg a EARTH_MU ha EARTH_MU_pos]
  exact ⟨hc, fun status body h => by rw [hc] at h; exact Except.noConfusion h⟩

/-- Witness for C9 at a = -1, e = 1/2. -/
theorem calculate_neg_axis_uncaught_witness :
    (-1 : ℝ) < 0 ∧
      calculate ⟨Param.value (-1), Param.value (1 / 2)⟩ = .error PyErr.valueError :=
  ⟨by norm_num, (calculate_neg_axis_uncaught (-1) (1 / 2) (by norm_num)).1⟩

/-- C10: the orbital_period field of a 200 response does not depend on the
eccentricity parameter: two successful responses for the same parsed
semi_major_axis and any two eccentricities carry the same orbital_period
value. -/
theorem period_independent_of_eccentricity (a e1 e2 : ℝ) (b1 b2 : Json)
    (h1 : calculate ⟨Param.value a, Param.value e1⟩ = .ok (200, b1))
    (h2 : calculate ⟨Param.value a, Param.value e2⟩ = .ok (200, b2)) :
    b1.lookup "orbital_period" = b2.lookup "orbital_period" := by
  cases hT : orbital_period a EARTH_MU with
  | error err =>
    have hc : calculate ⟨Param.value a, Param.value e1⟩ = .error err := by
      simp [calculate, Param.toFloat, hT]
    rw [hc] at h1
    exact absurd h1 (by simp)
  | ok T =>
    have hc1 : calculate ⟨Param.value a, Param.value e1⟩ = .ok (200, Json.obj
        [("periapsis", Json.num (periapsis_distance a e1)),
         ("apoapsis", Json.num (apoapsis_distance a e1)),
         ("orbital_period", Json.num T)]) := by
      simp [calculate, Param.toFloat, hT]
    have hc2 : calculate ⟨Param.value a, Param.value e2⟩ = .ok (200, Json.obj
        [("periapsis", Json.num (periapsis_distance a e2)),
         ("apoapsis", Json.num (apoapsis_distance a e2)),
         ("orbital_period", Json.num T)]) := by
      simp [calculate, Param.toFloat, hT]
    rw [hc1] at h1
    rw [hc2] at h2
    injection h1 with h1'
    injection h1' with _ hb1
    injection h2 with h2'
    injection h2' with _ hb2
    rw [← hb1, ← hb2]
    rfl

/-- Witness for C10 at a = 1, with eccentricities 0 and 1/2. -/
theorem period_independent_witness :
    Json.lookup (Json.obj
        [("periapsis", Json.num (periapsis_distance 1 0)),
         ("apoapsis", Json.num (apoapsis_distance 1 0)),
         ("orbital_period", Json.num (2 * Real.pi * Real.sqrt ((1 : ℝ) ^ 3 / EARTH_MU)))])
      "orbital_period" =
    Json.lookup (Json.obj
        [("periapsis", Json.num (periapsis_distance 1 (1 / 2))),
         ("apoapsis", Json.num (apoapsis_distance 1 (1 / 2))),
         ("orbital_period", Json.num (2 * Real.pi * Real.sqrt ((1 : ℝ) ^ 3 / EARTH_MU)))])
      "orbital_period" :=
  period_independent_of_eccentricity 1 0 (1 / 2) _ _
    (calculate_ok 1 0 (by norm_num)) (calculate_ok 1 (1 / 2) (by norm_num))

/-- Counterexample for C8: invoked standalone, the program does not print
the example calculation (it is not a printLines action at all), so the
claimed smoke-test output does not happen. -/
theorem main_action_not_print : ¬ spec_standalone_prints main_action := by
  rintro ⟨lines, h⟩
  simp [main_action] at h

/-- C8 amended: invoked standalone, the program starts the Flask
development server with debug enabled; it prints no example values. -/
theorem main_action_runs_server : main_action = MainAction.runServer true := rfl

end

end OrbitalMechanics
